import Mathlib

/-!
Shallow embedding of the conversion core of `src/main.py` (AnyDoc
universal file converter): the `CONVERSIONS` compatibility matrix, the
type detector `MainWindow.detect_file_type`, and the dispatcher/pipeline
`ConvertWorker.run`.

Modelling conventions.
* External libraries (fitz, PIL, python-docx, markdown, xhtml2pdf) and
  the filesystem enter through an `Env` record holding the result of
  each external operation; operations on the error paths the spec talks
  about are fallible (`Except String`), to model Python exceptions whose
  message `str(e)` is relayed by the `except` clause at line 325.
* Python machine-float progress arithmetic `int(((i+1)/total)*100)` is
  modelled by exact truncated natural division `(i+1)*100/total`
  (Python `int` truncates toward zero; the operands are nonnegative).
* Text files are strings; binary payloads are opaque byte lists.
* `leaked` records the scoped resources (the fitz document, the PIL
  image handle, the zip writer) still open when `run` returns, so that
  resource-release claims are statable: Python `with` blocks always
  close their resource, while `doc.close()` at line 270 only runs when
  no exception escaped the PDF branch.
-/

namespace FileConverter

/-- ASCII lowercasing of one character, modelling Python `str.lower()`
on the ASCII format strings the app uses. -/
def lowerChar (c : Char) : Char :=
  if 'A' ≤ c ∧ c ≤ 'Z' then Char.ofNat (c.toNat + 32) else c

/-- ASCII lowercasing of a string (Python `str.lower()`). -/
def lowerStr (s : String) : String := ⟨s.data.map lowerChar⟩

/-- ASCII uppercasing of one character (Python `str.upper()`). -/
def upperChar (c : Char) : Char :=
  if 'a' ≤ c ∧ c ≤ 'z' then Char.ofNat (c.toNat - 32) else c

/-- ASCII uppercasing of a string (Python `str.upper()`). -/
def upperStr (s : String) : String := ⟨s.data.map upperChar⟩

/-- `CODE_EXTS` (src/main.py line 209). -/
def CODE_EXTS : List String :=
  ["py", "js", "c", "cpp", "cs", "java", "json", "css", "html"]

/-- The `CONVERSIONS` compatibility matrix (src/main.py lines 211-219). -/
def CONVERSIONS : List (String × List String) :=
  [("PDF", ["png", "jpg", "jpeg", "txt"]),
   ("Image", ["png", "jpg", "jpeg", "webp", "bmp", "gif"]),
   ("DOCX", ["txt", "md"]),
   ("TXT", ["docx", "md"] ++ CODE_EXTS),
   ("MD", ["txt", "docx", "html", "pdf"]),
   ("HTML", ["pdf", "txt", "md"]),
   ("Code", ["txt", "md", "docx"])]

/-- Whether a (source, target) pair is present in the Compatibility
Matrix. -/
def supportedPair (source target : String) : Bool :=
  match CONVERSIONS.lookup source with
  | some targets => targets.contains target
  | none => false

/-- Substring occurrence on character lists (Python `needle in haystack`
on strings). -/
def occursIn (p : List Char) : List Char → Bool
  | [] => decide (p = [])
  | c :: rest => List.isPrefixOf p (c :: rest) || occursIn p rest

/-- Python's `needle in haystack` substring test. -/
def substrOf (needle haystack : String) : Bool :=
  occursIn needle.data haystack.data

/-- `MainWindow.detect_file_type` (src/main.py lines 559-591), the pure
classification part.  `mime` is `filetype.guess(path).mime` when magic
sniffing succeeded, `none` when `filetype.guess` returned `None`;
`ext` is `os.path.splitext(path)[1].lower()` (leading dot included).
Returns `none` when the chain falls through to the warning dialog. -/
def detect_file_type (mime : Option String) (ext : String) : Option String :=
  if (match mime with | some m => substrOf "pdf" m | none => false) then some "PDF"
  else if (match mime with | some m => substrOf "image" m | none => false) then some "Image"
  else if ext = ".pdf" then some "PDF"
  else if ([".png", ".jpg", ".jpeg", ".webp", ".bmp", ".gif"] : List String).contains ext then
    some "Image"
  else if ext = ".docx" then some "DOCX"
  else if ext = ".md" then some "MD"
  else if ([".htm", ".html"] : List String).contains ext then some "HTML"
  else if ext = ".txt" then some "TXT"
  else if CODE_EXTS.contains (String.mk (ext.data.filter (fun c => c ≠ '.'))) then some "Code"
  else none

/-- One page of an open fitz document: its extracted text
(`page.get_text()`) and, per target format, the encoded bytes of its
300-dpi pixmap (`page.get_pixmap(dpi=300)` then `tobytes`/`save`). -/
structure PdfPage where
  text : String
  render : String → List Nat

/-- An open fitz document: its ordered page list (`len(doc)` pages). -/
structure PdfDoc where
  pages : List PdfPage

/-- A decoded PIL image: its color `mode` string and opaque pixel
payload.  `PIL.Image.convert('RGB')` is modelled as replacing the mode
(pixel re-encoding is abstracted into the unchanged payload). -/
structure PILImage where
  mode : String
  data : List Nat
deriving DecidableEq

/-- Content of one file present in the output directory after a run. -/
inductive FileData
  /-- a text-mode UTF-8 write -/
  | text (s : String)
  /-- an opaque binary write (a saved pixmap, or a truncated partial file) -/
  | bytes (b : List Nat)
  /-- a zip archive with ordered (entry name, entry bytes) members -/
  | zip (entries : List (String × List Nat))
  /-- a python-docx document holding one paragraph of the given text -/
  | docx (content : String)
  /-- a PIL image saved in the format implied by the file extension -/
  | image (img : PILImage)
  /-- a pisa-rendered PDF produced from the given HTML -/
  | pdf (html : String)
deriving DecidableEq

/-- One emission on the worker's signal channels (src/main.py lines
222-224): `progress`, `finished` (Success) or `error` (Failure). -/
inductive Event
  | progress (pct : Nat)
  | finished (msg : String)
  | error (msg : String)
deriving DecidableEq

/-- Whether an event is terminal (Success or Failure). -/
def Event.isTerminal : Event → Bool
  | .progress _ => false
  | .finished _ => true
  | .error _ => true

/-- Number of terminal events in a stream. -/
def terminalCount (l : List Event) : Nat :=
  (l.filter Event.isTerminal).length

/-- Results of the external operations one `ConvertWorker.run` performs.
Fallible fields model the Python call raising (`.error msg` carries
`str(e)`); `.ok` models it succeeding with the given value. -/
structure Env where
  /-- `fitz.open(self.input_file)` (line 238) -/
  fitzOpen : Except String PdfDoc
  /-- `Image.open(self.input_file)` (line 273) -/
  imageOpen : Except String PILImage
  /-- `img.save(out_path)` (line 277) -/
  imageSave : Except String Unit
  /-- `docx.Document(self.input_file)` (line 282): the paragraph texts -/
  docxDocument : Except String (List String)
  /-- `open(self.input_file).read()` (lines 292-293) -/
  readInput : Except String String
  /-- opening/saving the textual output file (`open(out_path, 'w')` at
  lines 248, 286, 304, 319 and `doc.save(out_path)` at line 299) -/
  openOutput : Except String Unit
  /-- `pisa.CreatePDF(html_content, dest=pdf_file)` (line 315) -/
  pisaCreatePDF : Except String Unit
  /-- `markdown.markdown(text)` (lines 302, 309) -/
  markdownRender : String → String

/-- What one `ConvertWorker.run` left behind: the ordered signal
emissions, the files in the output directory, and the scoped resources
still open on return. -/
structure RunResult where
  events : List Event
  files : List (String × FileData)
  leaked : List String

/-- `ConvertWorker.run` (src/main.py lines 233-326).  `base` is
`os.path.splitext(os.path.basename(self.input_file))[0]` (line 235);
`source` is `self.source_format`; `target0` is the raw target format,
lowercased on line 231.  The whole body sits in a `try` whose `except`
(lines 325-326) emits `error (str e)`; effects performed before the
raise persist.  `doc.close()` (line 270) runs only when no exception
escaped the PDF branch, so on an in-branch raise the fitz document
stays open (`leaked`); the PIL image and the zip writer live in `with`
blocks and are always closed. -/
def ConvertWorker.run (env : Env) (base source target0 : String) : RunResult :=
  let target := lowerStr target0
  if source = "PDF" then
    match env.fitzOpen with
    | .error e => ⟨[.error e], [], []⟩
    | .ok doc =>
      let total := doc.pages.length
      if target = "txt" then
        -- lines 241-250: per-page text extraction with progress after each page
        let evs := (List.range total).map (fun i => Event.progress ((i + 1) * 100 / total))
        match env.openOutput with
        | .error e => ⟨evs ++ [.error e], [], ["fitz document"]⟩
        | .ok _ =>
          ⟨evs ++ [.finished "PDF successfully extracted to Text!"],
           [(base ++ ".txt", .text (String.join (doc.pages.map PdfPage.text)))], []⟩
      else if (["png", "jpg", "jpeg"] : List String).contains target then
        -- lines 252-269
        if total > 1 then
          ⟨(List.range total).map (fun i => Event.progress ((i + 1) * 100 / total))
             ++ [.finished "Multiple PDF pages successfully zipped as images!"],
           [(base ++ "_images.zip",
             .zip (doc.pages.enum.map (fun ip =>
               (base ++ "_page_" ++ toString (ip.1 + 1) ++ "." ++ target,
                ip.2.render target))))], []⟩
        else
          match doc.pages with
          | [] => ⟨[.error "page 0 is not in document"], [], ["fitz document"]⟩
          | p :: _ =>
            ⟨[.progress 100, .finished "Single PDF page successfully converted to image!"],
             [(base ++ "." ++ target, .bytes (p.render target))], []⟩
      else
        -- no elif matches: the branch body is skipped, doc.close() runs,
        -- and the try block ends without any emission
        ⟨[], [], []⟩
  else if source = "Image" then
    match env.imageOpen with
    | .error e => ⟨[.error e], [], []⟩
    | .ok img =>
      -- lines 273-279, inside `with Image.open(...)`
      let img2 :=
        if (["jpg", "jpeg"] : List String).contains target
            && (["RGBA", "LA", "P"] : List String).contains img.mode then
          { img with mode := "RGB" }
        else img
      match env.imageSave with
      | .error e => ⟨[.error e], [], []⟩
      | .ok _ =>
        ⟨[.progress 100, .finished ("Image converted to " ++ upperStr target ++ "!")],
         [(base ++ "_converted." ++ target, .image img2)], []⟩
  else if source = "DOCX" then
    match env.docxDocument with
    | .error e => ⟨[.error e], [], []⟩
    | .ok paras =>
      -- lines 281-289: note no check of the target format at all
      match env.openOutput with
      | .error e => ⟨[.error e], [], []⟩
      | .ok _ =>
        ⟨[.progress 100, .finished ("DOCX converted to " ++ upperStr target ++ "!")],
         [(base ++ "." ++ target, .text (String.intercalate "\n" paras))], []⟩
  else if (["TXT", "MD", "HTML", "Code"] : List String).contains source then
    match env.readInput with
    | .error e => ⟨[.error e], [], []⟩
    | .ok content =>
      if target = "docx" then
        match env.openOutput with
        | .error e => ⟨[.error e], [], []⟩
        | .ok _ =>
          ⟨[.progress 100, .finished ("File converted to " ++ upperStr target ++ "!")],
           [(base ++ ".docx", .docx content)], []⟩
      else if target = "html" && source = "MD" then
        match env.openOutput with
        | .error e => ⟨[.error e], [], []⟩
        | .ok _ =>
          ⟨[.progress 100, .finished ("File converted to " ++ upperStr target ++ "!")],
           [(base ++ ".html", .text (env.markdownRender content))], []⟩
      else if target = "pdf" && (source = "MD" || source = "HTML") then
        let html := if source = "MD" then env.markdownRender content else content
        -- line 314 opens (and truncates) the output before rendering, so a
        -- pisa failure leaves a partial file behind
        match env.pisaCreatePDF with
        | .error e => ⟨[.error e], [(base ++ ".pdf", .bytes [])], []⟩
        | .ok _ =>
          ⟨[.progress 100, .finished ("File converted to " ++ upperStr target ++ "!")],
           [(base ++ ".pdf", .pdf html)], []⟩
      else
        -- lines 317-320: pass-through
        match env.openOutput with
        | .error e => ⟨[.error e], [], []⟩
        | .ok _ =>
          ⟨[.progress 100, .finished ("File converted to " ++ upperStr target ++ "!")],
           [(base ++ "." ++ target, .text content)], []⟩
  else
    -- source format matches no branch: the try block falls through silently
    ⟨[], [], []⟩

/-- Nearest-integer rounding (half away from zero) of `a / b`: the
spec's `round(pagesDone/totalPages*100)` as an exact operation. -/
def roundFrac (a b : Nat) : Nat := (2 * a + b) / (2 * b)

/-- The (source, target) pairs that some branch of `ConvertWorker.run`
actually handles through to an emission. -/
def handledPair (source target : String) : Bool :=
  if source = "PDF" then
    (["txt", "png", "jpg", "jpeg"] : List String).contains (lowerStr target)
  else
    source = "Image" || source = "DOCX"
      || (["TXT", "MD", "HTML", "Code"] : List String).contains source

/-- All characters of the string are 7-bit ASCII. -/
def isAsciiStr (s : String) : Bool := s.data.all (fun c => c.toNat < 128)

/-- A benign environment: every external operation succeeds, the PDF has
no pages, the image is plain RGB, markdown rendering is the identity. -/
def env0 : Env :=
  { fitzOpen := .ok ⟨[]⟩
    imageOpen := .ok ⟨"RGB", []⟩
    imageSave := .ok ()
    docxDocument := .ok []
    readInput := .ok ""
    openOutput := .ok ()
    pisaCreatePDF := .ok ()
    markdownRender := id }

/-- First fixture page: text "A", every pixmap encoding is `[10]`. -/
def pageA : PdfPage := ⟨"A", fun _ => [10]⟩

/-- Second fixture page: text "B", every pixmap encoding is `[20]`. -/
def pageB : PdfPage := ⟨"B", fun _ => [20]⟩

/-- Third fixture page: text "C", every pixmap encoding is `[30]`. -/
def pageC : PdfPage := ⟨"C", fun _ => [30]⟩

/-- Environment whose input is a one-page PDF. -/
def envPdf1 : Env := { env0 with fitzOpen := .ok ⟨[pageA]⟩ }

/-- Environment whose input is a two-page PDF. -/
def envPdf2 : Env := { env0 with fitzOpen := .ok ⟨[pageA, pageB]⟩ }

/-- Environment whose input is a three-page PDF. -/
def envPdf3 : Env := { env0 with fitzOpen := .ok ⟨[pageA, pageB, pageC]⟩ }

/-- Environment with a one-page PDF where opening the output text file
raises `disk full`. -/
def envWriteFail : Env :=
  { env0 with fitzOpen := .ok ⟨[pageA]⟩, openOutput := .error "disk full" }

/-- Environment with a readable markdown input where the pisa renderer
raises. -/
def envPisaFail : Env :=
  { env0 with readInput := .ok "# title",
              pisaCreatePDF := .error "render backend failure" }

/-- Environment whose input image decodes with mode RGBA. -/
def envRGBA : Env := { env0 with imageOpen := .ok ⟨"RGBA", [9, 9]⟩ }

/-- Environment whose readable text input is "hello". -/
def envText : Env := { env0 with readInput := .ok "hello" }

/-- Every event of a range-indexed progress block is non-terminal. -/
lemma allProgress_progressMap (n N : Nat) :
    ∀ x ∈ (List.range n).map (fun i => Event.progress ((i + 1) * 100 / N)),
      x.isTerminal = false := by
  intro x hx
  simp only [List.mem_map] at hx
  obtain ⟨i, _, rfl⟩ := hx
  rfl

/-- A stream of non-terminal events followed by one terminal event has
all its non-final events non-terminal and exactly one terminal event. -/
lemma streamFacts (pre : List Event) (e : Event)
    (hpre : ∀ x ∈ pre, x.isTerminal = false) (he : e.isTerminal = true) :
    (((pre ++ [e]).dropLast.all fun x => !x.isTerminal) = true) ∧
    terminalCount (pre ++ [e]) = 1 := by
  have hfil : pre.filter Event.isTerminal = [] := by
    rw [List.filter_eq_nil_iff]
    intro a ha
    simp [hpre a ha]
  constructor
  · rw [List.dropLast_concat]
    simp only [List.all_eq_true, Bool.not_eq_true']
    exact hpre
  · simp [terminalCount, List.filter_append, hfil, he]

/-- C4: for an MD or HTML source converted to pdf, when the HTML-to-PDF
renderer (`pisa.CreatePDF`) raises, the job terminates with exactly one
Failure carrying the renderer's error message and no Success. -/
theorem C4_pisa_failure_surfaces (env : Env) (base source content e : String)
    (hs : source = "MD" ∨ source = "HTML")
    (hr : env.readInput = .ok content)
    (hp : env.pisaCreatePDF = .error e) :
    (ConvertWorker.run env base source "pdf").events = [.error e] := by
  have hl : lowerStr "pdf" = "pdf" := by decide
  rcases hs with h | h <;> subst h <;>
    simp [ConvertWorker.run, hr, hp, hl]

/-- C4 witness at a concrete markdown input with a failing renderer. -/
theorem C4_pisa_failure_surfaces_witness :
    (ConvertWorker.run envPisaFail "f" "MD" "pdf").events
      = [.error "render backend failure"] :=
  C4_pisa_failure_surfaces envPisaFail "f" "MD" "# title"
    "render backend failure" (Or.inl rfl) rfl rfl

/-- C7: magic-number classification to PDF or Image takes precedence
over the extension whenever it succeeds; when it fails the extension
table decides, so `.jpg` with failed sniffing resolves to Image and
`.html` with failed sniffing resolves to HTML even though "html" is in
the code-extension set. -/
theorem C7_detection_precedence :
    (∀ m ext, substrOf "pdf" m = true →
        detect_file_type (some m) ext = some "PDF") ∧
    (∀ m ext, substrOf "pdf" m = false → substrOf "image" m = true →
        detect_file_type (some m) ext = some "Image") ∧
    (∀ m ext, substrOf "pdf" m = false → substrOf "image" m = false →
        detect_file_type (some m) ext = detect_file_type none ext) ∧
    detect_file_type none ".jpg" = some "Image" ∧
    detect_file_type none ".html" = some "HTML" ∧
    "html" ∈ CODE_EXTS := by
  refine ⟨?_, ?_, ?_, by decide, by decide, by decide⟩
  · intro m ext h
    simp [detect_file_type, h]
  · intro m ext h1 h2
    simp [detect_file_type, h1, h2]
  · intro m ext h1 h2
    simp [detect_file_type, h1, h2]

/-- C7 witness instances for each hypothetical conjunct. -/
theorem C7_detection_precedence_witness :
    detect_file_type (some "application/pdf") ".html" = some "PDF" ∧
    detect_file_type (some "image/png") ".txt" = some "Image" ∧
    detect_file_type (some "text/plain") ".jpg" = detect_file_type none ".jpg" :=
  ⟨C7_detection_precedence.1 "application/pdf" ".html" (by decide),
   C7_detection_precedence.2.1 "image/png" ".txt" (by decide) (by decide),
   C7_detection_precedence.2.2.1 "text/plain" ".jpg" (by decide) (by decide)⟩

/-- C8: TXT→md and MD→txt both go through the pass-through branch and
write the read content unchanged, so the round trip is byte-identical
on (in particular ASCII) content. -/
theorem C8_txt_md_roundtrip (env env2 : Env) (base base2 c : String)
    (hA : isAsciiStr c = true)
    (h1 : env.readInput = .ok c) (hw1 : env.openOutput = .ok ())
    (h2 : env2.readInput = .ok c) (hw2 : env2.openOutput = .ok ()) :
    (ConvertWorker.run env base "TXT" "md").files = [(base ++ ".md", .text c)] ∧
    (ConvertWorker.run env2 base2 "MD" "txt").files = [(base2 ++ ".txt", .text c)] := by
  have hmd : lowerStr "md" = "md" := by decide
  have htxt : lowerStr "txt" = "txt" := by decide
  constructor
  · simp [ConvertWorker.run, h1, hw1, hmd, String.append_assoc]
  · simp [ConvertWorker.run, h2, hw2, htxt, String.append_assoc]

/-- C8 witness on the ASCII content "hello". -/
theorem C8_txt_md_roundtrip_witness :
    (ConvertWorker.run envText "a" "TXT" "md").files = [("a.md", .text "hello")] ∧
    (ConvertWorker.run envText "b" "MD" "txt").files = [("b.txt", .text "hello")] :=
  C8_txt_md_roundtrip envText envText "a" "b" "hello" (by decide) rfl rfl rfl rfl

/-- C9: Image→jpg/jpeg with an alpha or palette mode (RGBA, LA, P) is
flattened to RGB before encoding, writes exactly
`<basename>_converted.<ext>`, emits one Progress 100 and then Success,
and no error occurs. -/
theorem C9_alpha_flatten (env : Env) (base t : String) (img : PILImage)
    (hopen : env.imageOpen = .ok img) (hsave : env.imageSave = .ok ())
    (ht : t = "jpg" ∨ t = "jpeg")
    (hm : img.mode = "RGBA" ∨ img.mode = "LA" ∨ img.mode = "P") :
    (ConvertWorker.run env base "Image" t).files
        = [(base ++ "_converted." ++ t, .image ⟨"RGB", img.data⟩)] ∧
    (ConvertWorker.run env base "Image" t).events
        = [.progress 100, .finished ("Image converted to " ++ upperStr t ++ "!")] := by
  have hjpg : lowerStr "jpg" = "jpg" := by decide
  have hjpeg : lowerStr "jpeg" = "jpeg" := by decide
  rcases ht with h | h <;> subst h <;>
    rcases hm with h' | h' | h' <;>
      constructor <;>
        simp [ConvertWorker.run, hopen, hsave, hjpg, hjpeg, h']

/-- C9 witness on a concrete RGBA fixture. -/
theorem C9_alpha_flatten_witness :
    (ConvertWorker.run envRGBA "f" "Image" "jpg").files
        = [("f_converted.jpg", .image ⟨"RGB", [9, 9]⟩)] ∧
    (ConvertWorker.run envRGBA "f" "Image" "jpg").events
        = [.progress 100, .finished "Image converted to JPG!"] :=
  C9_alpha_flatten envRGBA "f" "jpg" ⟨"RGBA", [9, 9]⟩ rfl rfl
    (Or.inl rfl) (Or.inl rfl)

/-- C10: on a zero-page PDF with target txt the per-page loop body never
runs: no Progress is emitted, an empty `<basename>.txt` is written, and
the job ends with exactly one Success. -/
theorem C10_pdf_zero_pages (env : Env) (base : String)
    (hopen : env.fitzOpen = .ok ⟨[]⟩) (hout : env.openOutput = .ok ()) :
    (ConvertWorker.run env base "PDF" "txt").events
        = [.finished "PDF successfully extracted to Text!"] ∧
    (ConvertWorker.run env base "PDF" "txt").files
        = [(base ++ ".txt", .text "")] := by
  have htxt : lowerStr "txt" = "txt" := by decide
  constructor <;> simp [ConvertWorker.run, hopen, hout, htxt, String.join]

/-- C10 witness: `env0` holds a zero-page PDF. -/
theorem C10_pdf_zero_pages_witness :
    (ConvertWorker.run env0 "f" "PDF" "txt").events
        = [.finished "PDF successfully extracted to Text!"] ∧
    (ConvertWorker.run env0 "f" "PDF" "txt").files = [("f.txt", .text "")] :=
  C10_pdf_zero_pages env0 "f" rfl rfl

/-- C1 counterexample: ("DOCX", "pdf") is absent from the Compatibility
Matrix, yet instead of one immediate "unsupported conversion" Failure
the worker runs the DOCX pipeline, writes an output file, and emits
Success. -/
theorem C1_cex :
    supportedPair "DOCX" "pdf" = false ∧
    (ConvertWorker.run env0 "f" "DOCX" "pdf").events
        = [.progress 100, .finished "DOCX converted to PDF!"] ∧
    (ConvertWorker.run env0 "f" "DOCX" "pdf").files = [("f.pdf", .text "")] := by
  decide

/-- C1 (amended): no compatibility validation exists on the submission
path and no "unsupported conversion" Failure is ever produced; invalid
pairs are kept out only by the UI offering targets from the matrix row.
A worker invoked on a PDF source with a target outside the PDF matrix
row still opens the document (file I/O occurs) and then emits no
outcome at all and writes no file. -/
theorem C1_no_matrix_validation (env : Env) (doc : PdfDoc) (base t : String)
    (hopen : env.fitzOpen = .ok doc)
    (ht : supportedPair "PDF" (lowerStr t) = false) :
    (ConvertWorker.run env base "PDF" t).events = [] ∧
    (ConvertWorker.run env base "PDF" t).files = [] := by
  have ht' : (["png", "jpg", "jpeg", "txt"] : List String).contains (lowerStr t)
      = false := ht
  simp only [List.contains, List.elem_eq_mem, List.mem_cons, List.not_mem_nil,
    or_false, decide_eq_false_iff_not, not_or] at ht'
  obtain ⟨hpng, hjpg, hjpeg, htxt⟩ := ht'
  constructor <;> simp [ConvertWorker.run, hopen, hpng, hjpg, hjpeg, htxt]

/-- C1 amended witness at the concrete unsupported pair ("PDF", "docx"). -/
theorem C1_no_matrix_validation_witness :
    (ConvertWorker.run env0 "f" "PDF" "docx").events = [] ∧
    (ConvertWorker.run env0 "f" "PDF" "docx").files = [] :=
  C1_no_matrix_validation env0 ⟨[]⟩ "f" "docx" rfl (by decide)

/-- C3 counterexample: on a three-page PDF the second progress value is
Python truncation int(2/3*100) = 66, while the claimed round(2/3*100)
is 67. -/
theorem C3_cex :
    (ConvertWorker.run envPdf3 "f" "PDF" "txt").events
        = [.progress 33, .progress 66, .progress 100,
           .finished "PDF successfully extracted to Text!"] ∧
    roundFrac 200 3 = 67 ∧ (66 : Nat) ≠ 67 := by
  decide

/-- C3 (amended): PDF→txt on an N-page document (N ≥ 1) emits exactly N
progress events whose i-th value is the truncation int(i*100/N) — not
the rounding round(i/N*100) — for i = 1..N, writes the page-ordered
concatenation (no added separator) to `<basename>.txt`, and then emits
one Success. -/
theorem C3_pdf_txt_progress_truncates (env : Env) (doc : PdfDoc) (base : String)
    (hopen : env.fitzOpen = .ok doc) (hout : env.openOutput = .ok ())
    (hne : doc.pages ≠ []) :
    (ConvertWorker.run env base "PDF" "txt").events
        = ((List.range doc.pages.length).map fun i =>
            Event.progress ((i + 1) * 100 / doc.pages.length))
          ++ [.finished "PDF successfully extracted to Text!"] ∧
    (ConvertWorker.run env base "PDF" "txt").files
        = [(base ++ ".txt", .text (String.join (doc.pages.map PdfPage.text)))] := by
  have htxt : lowerStr "txt" = "txt" := by decide
  constructor <;> simp [ConvertWorker.run, hopen, hout, htxt]

/-- C3 amended witness on the two-page fixture: progress 50 then 100. -/
theorem C3_pdf_txt_progress_truncates_witness :
    (ConvertWorker.run envPdf2 "f" "PDF" "txt").events
        = [.progress 50, .progress 100, .finished "PDF successfully extracted to Text!"] ∧
    (ConvertWorker.run envPdf2 "f" "PDF" "txt").files
        = [("f.txt", .text "AB")] := by
  obtain ⟨h1, h2⟩ := C3_pdf_txt_progress_truncates envPdf2 ⟨[pageA, pageB]⟩ "f"
    rfl rfl (by simp)
  refine ⟨?_, ?_⟩
  · rw [h1]; decide
  · rw [h2]; decide

/-- C5 counterexample: on PDF→txt where opening the output file raises,
the exception path skips `doc.close()` (line 270 is not in a
finally/with), so the fitz document handle is still open when the job
terminates with its Failure. -/
theorem C5_cex :
    (ConvertWorker.run envWriteFail "f" "PDF" "txt").leaked = ["fitz document"] ∧
    (ConvertWorker.run envWriteFail "f" "PDF" "txt").events
        = [.progress 100, .error "disk full"] := by
  decide

/-- C5 (amended): the PIL image handle and the zip archive writer are
scoped (`with` blocks) and are released on every exit path; only the
fitz document handle can remain open, and only when an error is raised
inside the PDF branch, because `doc.close()` runs only on the branch's
normal exit. -/
theorem C5_only_fitz_can_leak (env : Env) (base source t : String) :
    (ConvertWorker.run env base source t).leaked = [] ∨
    (source = "PDF" ∧
      (ConvertWorker.run env base source t).leaked = ["fitz document"]) := by
  by_cases h1 : source = "PDF"
  · subst h1
    cases henv : env.fitzOpen with
    | error e => left; simp [ConvertWorker.run, henv]
    | ok doc =>
      by_cases h2 : lowerStr t = "txt"
      · cases hout : env.openOutput with
        | error e =>
          exact Or.inr ⟨rfl, by simp [ConvertWorker.run, henv, h2, hout]⟩
        | ok u => left; simp [ConvertWorker.run, henv, h2, hout]
      · by_cases h3 : lowerStr t = "png" ∨ lowerStr t = "jpg" ∨ lowerStr t = "jpeg"
        · by_cases h4 : 1 < doc.pages.length
          · left
            rcases h3 with h | h | h <;> simp [ConvertWorker.run, henv, h, h4]
          · cases hp : doc.pages with
            | nil =>
              refine Or.inr ⟨rfl, ?_⟩
              rcases h3 with h | h | h <;> simp [ConvertWorker.run, henv, h, hp]
            | cons p ps =>
              left
              have hps : ps.length = 0 := by
                rw [hp] at h4
                simp only [List.length_cons] at h4
                omega
              rcases h3 with h | h | h <;>
                simp [ConvertWorker.run, henv, h, hp, hps]
        · left
          push_neg at h3
          simp [ConvertWorker.run, henv, h2, h3.1, h3.2.1, h3.2.2]
  · left
    by_cases h2 : source = "Image"
    · subst h2
      cases hio : env.imageOpen with
      | error e => simp [ConvertWorker.run, hio]
      | ok img =>
        cases his : env.imageSave with
        | error e => simp [ConvertWorker.run, hio, his]
        | ok u => simp [ConvertWorker.run, hio, his]
    · by_cases h3 : source = "DOCX"
      · subst h3
        cases hdd : env.docxDocument with
        | error e => simp [ConvertWorker.run, hdd]
        | ok paras =>
          cases hout : env.openOutput with
          | error e => simp [ConvertWorker.run, hdd, hout]
          | ok u => simp [ConvertWorker.run, hdd, hout]
      · by_cases h4 : source = "TXT" ∨ source = "MD" ∨ source = "HTML" ∨ source = "Code"
        · have hbody : ∀ s : String, s = "TXT" ∨ s = "MD" ∨ s = "HTML" ∨ s = "Code" →
              s ≠ "PDF" → s ≠ "Image" → s ≠ "DOCX" →
              (ConvertWorker.run env base s t).leaked = [] := by
            intro s hs hs1 hs2 hs3
            cases hri : env.readInput with
            | error e =>
              rcases hs with h | h | h | h <;> subst h <;>
                simp [ConvertWorker.run, hri]
            | ok content =>
              rcases hs with h | h | h | h <;> subst h
              all_goals
                simp [ConvertWorker.run, hri]
                repeat' split
                all_goals rfl
          exact hbody source h4 h1 h2 h3
        · push_neg at h4
          simp [ConvertWorker.run, h1, h2, h3, h4.1, h4.2.1, h4.2.2.1, h4.2.2.2]

/-- C6: PDF→{png,jpg,jpeg}: a one-page document yields exactly the
single image file `<basename>.<ext>` (no archive) with progress jumping
to 100; an N-page document with N > 1 yields the single archive
`<basename>_images.zip` holding exactly N entries named
`<basename>_page_<n>.<ext>`, 1-indexed in page order, with a progress
emission after each page. -/
theorem C6_pdf_image_packaging (env : Env) (doc : PdfDoc) (base t : String)
    (hopen : env.fitzOpen = .ok doc)
    (ht : t = "png" ∨ t = "jpg" ∨ t = "jpeg") :
    (∀ p, doc.pages = [p] →
        (ConvertWorker.run env base "PDF" t).files
            = [(base ++ "." ++ t, .bytes (p.render t))] ∧
        (ConvertWorker.run env base "PDF" t).events
            = [.progress 100,
               .finished "Single PDF page successfully converted to image!"]) ∧
    (1 < doc.pages.length →
        ∃ entries,
          (ConvertWorker.run env base "PDF" t).files
              = [(base ++ "_images.zip", FileData.zip entries)] ∧
          entries.length = doc.pages.length ∧
          entries.map Prod.fst
              = (List.range doc.pages.length).map
                  (fun k => base ++ "_page_" ++ toString (k + 1) ++ "." ++ t) ∧
          entries = doc.pages.enum.map (fun ip =>
              (base ++ "_page_" ++ toString (ip.1 + 1) ++ "." ++ t,
               ip.2.render t)) ∧
          (ConvertWorker.run env base "PDF" t).events
              = ((List.range doc.pages.length).map fun i =>
                  Event.progress ((i + 1) * 100 / doc.pages.length))
                ++ [.finished "Multiple PDF pages successfully zipped as images!"]) := by
  have hl : lowerStr t = t := by
    rcases ht with h | h | h <;> subst h <;> decide
  have hnt : t ≠ "txt" := by
    rcases ht with h | h | h <;> subst h <;> decide
  constructor
  · intro p hp
    refine ⟨?_, ?_⟩ <;>
      (simp [ConvertWorker.run, hopen, hl, hnt, hp]; rw [if_pos ht])
  · intro hlen
    refine ⟨doc.pages.enum.map (fun ip =>
      (base ++ "_page_" ++ toString (ip.1 + 1) ++ "." ++ t, ip.2.render t)),
      ?_, ?_, ?_, rfl, ?_⟩
    · simp [ConvertWorker.run, hopen, hl, hnt, hlen]; rw [if_pos ht]
    · simp
    · rw [List.map_map]
      have hcomp : (Prod.fst ∘ fun ip : Nat × PdfPage =>
          (base ++ "_page_" ++ toString (ip.1 + 1) ++ "." ++ t, ip.2.render t))
          = ((fun k => base ++ "_page_" ++ toString (k + 1) ++ "." ++ t) ∘ Prod.fst) := rfl
      rw [hcomp, ← List.map_map, List.enum_map_fst]
    · simp [ConvertWorker.run, hopen, hl, hnt, hlen]; rw [if_pos ht]

/-- C6 witness at a one-page and a three-page fixture. -/
theorem C6_pdf_image_packaging_witness :
    (ConvertWorker.run envPdf1 "f" "PDF" "png").files = [("f.png", .bytes [10])] ∧
    (ConvertWorker.run envPdf3 "f" "PDF" "png").files
        = [("f_images.zip", FileData.zip
            [("f_page_1.png", [10]), ("f_page_2.png", [20]),
             ("f_page_3.png", [30])])] := by
  constructor
  · exact ((C6_pdf_image_packaging envPdf1 ⟨[pageA]⟩ "f" "png" rfl
      (Or.inl rfl)).1 pageA rfl).1
  · obtain ⟨entries, hfiles, hlen, hnames, hentries, hevs⟩ :=
      (C6_pdf_image_packaging envPdf3 ⟨[pageA, pageB, pageC]⟩ "f" "png" rfl
        (Or.inl rfl)).2 (by decide)
    rw [hfiles, hentries]
    decide

/-- A stream equal to non-terminal events followed by one terminal
event satisfies the terminal-shape conjunction. -/
lemma shapeConj (P : Prop) (l pre : List Event) (e : Event)
    (hl : l = pre ++ [e]) (hpre : ∀ x ∈ pre, x.isTerminal = false)
    (he : e.isTerminal = true) :
    ((l.dropLast.all fun x => !x.isTerminal) = true) ∧
    terminalCount l ≤ 1 ∧ (P → terminalCount l = 1) := by
  subst hl
  obtain ⟨h1, h2⟩ := streamFacts pre e hpre he
  exact ⟨h1, le_of_eq h2, fun _ => h2⟩

/-- An empty stream satisfies the terminal-shape conjunction whenever
the pair is not handled. -/
lemma shapeEmpty (P : Prop) (l : List Event) (hl : l = []) (hp : ¬P) :
    ((l.dropLast.all fun x => !x.isTerminal) = true) ∧
    terminalCount l ≤ 1 ∧ (P → terminalCount l = 1) := by
  subst hl
  exact ⟨rfl, Nat.zero_le 1, fun h => absurd h hp⟩

/-- A run on a text-like source emits either a single Failure or a
Progress 100 followed by a Success. -/
lemma textlike_events (env : Env) (base t s : String)
    (hs : s = "TXT" ∨ s = "MD" ∨ s = "HTML" ∨ s = "Code") :
    (∃ e, (ConvertWorker.run env base s t).events = [Event.error e]) ∨
    (∃ m, (ConvertWorker.run env base s t).events
        = [Event.progress 100, Event.finished m]) := by
  rcases hs with h | h | h | h <;> subst h
  all_goals
    cases hri : env.readInput with
    | error e => exact Or.inl ⟨e, by simp [ConvertWorker.run, hri]⟩
    | ok content =>
      simp [ConvertWorker.run, hri]
      repeat' split
      all_goals
        first
          | exact Or.inl ⟨_, rfl⟩
          | exact Or.inr ⟨_, rfl⟩

/-- C2 counterexample: a job submitted with the (unvalidated) pair
("PDF", "md") produces an outcome stream with zero terminal events —
neither Success nor Failure ever arrives. -/
theorem C2_cex :
    terminalCount (ConvertWorker.run env0 "f" "PDF" "md").events = 0 ∧
    (ConvertWorker.run env0 "f" "PDF" "md").events = [] := by
  decide

/-- C2 (amended): in every run all events before the last are Progress
events and at most one terminal event occurs; exactly one terminal
event occurs whenever the (source, target) pair is handled by some
branch of the worker.  A pair no branch handles — a PDF source with a
target outside {txt, png, jpg, jpeg} once the document opened, or an
unrecognized source tag — produces zero terminal events (see the
counterexample), because the worker performs no validation. -/
theorem C2_stream_shape (env : Env) (base source t : String) :
    ((ConvertWorker.run env base source t).events.dropLast.all
        fun x => !x.isTerminal) = true ∧
    terminalCount (ConvertWorker.run env base source t).events ≤ 1 ∧
    (handledPair source t = true →
        terminalCount (ConvertWorker.run env base source t).events = 1) := by
  by_cases h1 : source = "PDF"
  · subst h1
    cases henv : env.fitzOpen with
    | error e =>
      exact shapeConj _ _ [] (.error e)
        (by simp [ConvertWorker.run, henv]) (by simp) rfl
    | ok doc =>
      by_cases h2 : lowerStr t = "txt"
      · cases hout : env.openOutput with
        | error e =>
          exact shapeConj _ _ ((List.range doc.pages.length).map fun i =>
              Event.progress ((i + 1) * 100 / doc.pages.length)) (.error e)
            (by simp [ConvertWorker.run, henv, h2, hout])
            (allProgress_progressMap _ _) rfl
        | ok u =>
          exact shapeConj _ _ ((List.range doc.pages.length).map fun i =>
              Event.progress ((i + 1) * 100 / doc.pages.length))
            (.finished "PDF successfully extracted to Text!")
            (by simp [ConvertWorker.run, henv, h2, hout])
            (allProgress_progressMap _ _) rfl
      · by_cases h3 : lowerStr t = "png" ∨ lowerStr t = "jpg" ∨ lowerStr t = "jpeg"
        · by_cases h4 : 1 < doc.pages.length
          · rcases h3 with h | h | h <;>
              exact shapeConj _ _ ((List.range doc.pages.length).map fun i =>
                  Event.progress ((i + 1) * 100 / doc.pages.length))
                (.finished "Multiple PDF pages successfully zipped as images!")
                (by simp [ConvertWorker.run, henv, h, h4])
                (allProgress_progressMap _ _) rfl
          · cases hp : doc.pages with
            | nil =>
              rcases h3 with h | h | h <;>
                exact shapeConj _ _ [] (.error "page 0 is not in document")
                  (by simp [ConvertWorker.run, henv, h, hp]) (by simp) rfl
            | cons p ps =>
              have hps : ps.length = 0 := by
                rw [hp] at h4
                simp only [List.length_cons] at h4
                omega
              rcases h3 with h | h | h <;>
                exact shapeConj _ _ [Event.progress 100]
                  (.finished "Single PDF page successfully converted to image!")
                  (by simp [ConvertWorker.run, henv, h, hp, hps]) (by decide) rfl
        · push_neg at h3
          have hfalse : handledPair "PDF" t = false := by
            simp [handledPair, h2, h3.1, h3.2.1, h3.2.2]
          exact shapeEmpty _ _
            (by simp [ConvertWorker.run, henv, h2, h3.1, h3.2.1, h3.2.2])
            (by simp [hfalse])
  · by_cases h2 : source = "Image"
    · subst h2
      cases hio : env.imageOpen with
      | error e =>
        exact shapeConj _ _ [] (.error e)
          (by simp [ConvertWorker.run, hio]) (by simp) rfl
      | ok img =>
        cases his : env.imageSave with
        | error e =>
          exact shapeConj _ _ [] (.error e)
            (by simp [ConvertWorker.run, hio, his]) (by simp) rfl
        | ok u =>
          exact shapeConj _ _ [Event.progress 100]
            (.finished ("Image converted to " ++ upperStr (lowerStr t) ++ "!"))
            (by simp [ConvertWorker.run, hio, his]) (by decide) rfl
    · by_cases h3 : source = "DOCX"
      · subst h3
        cases hdd : env.docxDocument with
        | error e =>
          exact shapeConj _ _ [] (.error e)
            (by simp [ConvertWorker.run, hdd]) (by simp) rfl
        | ok paras =>
          cases hout : env.openOutput with
          | error e =>
            exact shapeConj _ _ [] (.error e)
              (by simp [ConvertWorker.run, hdd, hout]) (by simp) rfl
          | ok u =>
            exact shapeConj _ _ [Event.progress 100]
              (.finished ("DOCX converted to " ++ upperStr (lowerStr t) ++ "!"))
              (by simp [ConvertWorker.run, hdd, hout]) (by decide) rfl
      · by_cases h4 : source = "TXT" ∨ source = "MD" ∨ source = "HTML" ∨ source = "Code"
        · rcases textlike_events env base t source h4 with ⟨e, he⟩ | ⟨m, hm⟩
          · exact shapeConj _ _ [] (.error e) he (by simp) rfl
          · exact shapeConj _ _ [Event.progress 100] (.finished m) hm (by decide) rfl
        · push_neg at h4
          have hfalse : handledPair source t = false := by
            simp [handledPair, h1, h2, h3, h4.1, h4.2.1, h4.2.2.1, h4.2.2.2]
          exact shapeEmpty _ _
            (by simp [ConvertWorker.run, h1, h2, h3,
              h4.1, h4.2.1, h4.2.2.1, h4.2.2.2])
            (by simp [hfalse])

/-- C2 amended witness at a handled pair. -/
theorem C2_stream_shape_witness :
    terminalCount (ConvertWorker.run env0 "f" "TXT" "md").events = 1 :=
  (C2_stream_shape env0 "f" "TXT" "md").2.2 (by decide)

end FileConverter
